import Mathlib

/-!
Verification of the AutoDevOps pull-request review scripts.

This file is a shallow embedding of the three Python source files
(`agent_reviewer.py`, `simple_reviewer.py`, `list_models.py`).  External
effects — subprocess execution, the GitHub client, the Gemini reasoning
service, and the process environment — are modelled as explicit behavior
parameters (oracles), while the Python control flow of each embedded
function follows its source line by line.  Machine-level concerns do not
arise: every value manipulated by the scripts is a string, an integer
exit code, or a mapping of strings.
-/

/-! ## Python exception values -/

/-- Exceptions that the embedded code can raise or catch.  Each carries
the text that Python would render for it via str(e). -/
inductive PyExn where
  | timeoutExpired (cmd : String) (timeoutSecs : Nat)
  | valueError (msg : String)
  | badCredentials (msg : String)
  | generic (msg : String)
  deriving DecidableEq

/-- The str() rendering carried by each modelled exception.  For
TimeoutExpired the text embeds the command and the configured timeout,
as subprocess renders it. -/
def PyExn.message : PyExn → String
  | PyExn.timeoutExpired cmd t => "Command " ++ cmd ++ " timed out after " ++ toString t ++ " seconds"
  | PyExn.valueError m => m
  | PyExn.badCredentials m => m
  | PyExn.generic m => m

/-! ## Sandboxed tool runner (RuffTool, BanditTool, PytestExecutionTool) -/

/-- Fields of a completed subprocess.run call with capture_output=True,
text=True: the exit code and both decoded output streams. -/
structure CompletedProcess where
  returncode : Int
  stdout : String
  stderr : String
  deriving DecidableEq

/-- Possible behaviors of one subprocess.run invocation: completion with
any exit code and outputs, timeout expiry (raises TimeoutExpired), or any
other raised exception (e.g., launch failure). -/
inductive SubprocessBehavior where
  | completes (returncode : Int) (stdout : String) (stderr : String)
  | timesOut
  | raises (msg : String)
  deriving DecidableEq

/-- State visible to one sandboxed tool invocation: whether the
invocation's uniquely named temporary file currently exists on disk, and
whether the local variable tested by the except-branch cleanup guard is
set — code_file (via 'code_file' in locals()) for RuffTool and
BanditTool, test_file_path (via its not-None truthiness) for
PytestExecutionTool. -/
structure SandboxState where
  tempFileExists : Bool
  cleanupVarSet : Bool
  deriving DecidableEq

/-- Fresh state before an invocation: the uniquely named temporary file
does not exist yet and no guard variable is set. -/
def freshSandbox : SandboxState := SandboxState.mk false false

/-- State-and-exception monad for the Python tool bodies: a computation
transforms the sandbox state and either returns a value or raises a
PyExn.  The state at the raise point is preserved, so except-handlers can
observe which cleanup is still pending. -/
def PyM (α : Type) : Type := SandboxState → Except PyExn α × SandboxState

instance : Monad PyM where
  pure a := fun s => (Except.ok a, s)
  bind x f := fun s =>
    match x s with
    | (Except.ok a, s1) => f a s1
    | (Except.error e, s1) => (Except.error e, s1)

/-- Python try/except Exception as e: run the body; if it raises, run the
handler on the exception, starting from the state at the raise point. -/
def pyTry {α : Type} (body : PyM α) (handler : PyExn → PyM α) : PyM α := fun s =>
  match body s with
  | (Except.ok a, s1) => (Except.ok a, s1)
  | (Except.error e, s1) => handler e s1

/-- tempfile.NamedTemporaryFile(delete=False, ...): creates the uniquely
named temporary file on disk, or raises before creating it when
createRaises is set (in which case no local for it comes into scope
either). -/
def namedTemporaryFile (createRaises : Option String) : PyM Unit := fun s =>
  match createRaises with
  | some m => (Except.error (PyExn.generic m), s)
  | none => (Except.ok (), SandboxState.mk true s.cleanupVarSet)

/-- The statement that makes a tool's cleanup guard variable available:
for RuffTool and BanditTool this is the with-statement binding of
code_file, executed as soon as the constructor succeeds and before the
write; for PytestExecutionTool it is the assignment
test_file_path = test_file.name, which the source places after the
write. -/
def setCleanupVar : PyM Unit := fun s => (Except.ok (), SandboxState.mk s.tempFileExists true)

/-- The first half of each except-branch guard:
'code_file' in locals() for RuffTool and BanditTool, and the truthiness
of test_file_path (None until assigned, then a non-empty path) for
PytestExecutionTool. -/
def cleanupVarIsSet : PyM Bool := fun s => (Except.ok s.cleanupVarSet, s)

/-- code_file.write(code_content) inside the with-block: may raise (disk
full, encoding error); the file already exists either way. -/
def fileWrite (content : String) (writeRaises : Option String) : PyM Unit := fun s =>
  match writeRaises with
  | some m => (Except.error (PyExn.generic m), s)
  | none => (Except.ok (), s)

/-- subprocess.run(cmd, capture_output=True, text=True, timeout=timeoutSecs):
either completes with a CompletedProcess (any exit code — no check=True, so
a non-zero exit does not raise), raises TimeoutExpired at timeout expiry,
or raises some other exception. -/
def subprocessRun (b : SubprocessBehavior) (cmd : String) (timeoutSecs : Nat) :
    PyM CompletedProcess := fun s =>
  match b with
  | SubprocessBehavior.completes rc out err => (Except.ok (CompletedProcess.mk rc out err), s)
  | SubprocessBehavior.timesOut => (Except.error (PyExn.timeoutExpired cmd timeoutSecs), s)
  | SubprocessBehavior.raises m => (Except.error (PyExn.generic m), s)

/-- os.path.exists on the invocation's temporary file. -/
def osPathExists : PyM Bool := fun s => (Except.ok s.tempFileExists, s)

/-- os.unlink on the invocation's temporary file; raises FileNotFoundError
when it does not exist. -/
def osUnlink : PyM Unit := fun s =>
  if s.tempFileExists then (Except.ok (), SandboxState.mk false s.cleanupVarSet)
  else (Except.error (PyExn.generic "FileNotFoundError"), s)

namespace RuffTool

/-- Command launched by RuffTool (sys.executable -m ruff check <file>
--format=json --exit-zero), abbreviated to the tool name for the
TimeoutExpired text. -/
def cmd : String := "ruff"

/-- Embedding of RuffTool._run from agent_reviewer.py: the with-statement
creates the temporary file and binds code_file (so the cleanup guard
variable is set before the write), the code is written, ruff runs with a
30-second timeout, the file is unlinked, and the process stdout is
returned (stderr is only logged); the except-branch unlinks the file when
'code_file' in locals() and os.path.exists hold, then returns an
error-message string. -/
def _run (code_content : String) (createRaises writeRaises : Option String)
    (b : SubprocessBehavior) : PyM String :=
  pyTry
    (do
      namedTemporaryFile createRaises
      setCleanupVar
      fileWrite code_content writeRaises
      let process ← subprocessRun b cmd 30
      osUnlink
      pure process.stdout)
    (fun e => do
      let bound ← cleanupVarIsSet
      let stillThere ← osPathExists
      if bound && stillThere then osUnlink else pure ()
      pure ("Error during ruff execution: " ++ e.message))

end RuffTool

namespace BanditTool

/-- Command launched by BanditTool (sys.executable -m bandit -f json -q
<file>), abbreviated to the tool name for the TimeoutExpired text. -/
def cmd : String := "bandit"

/-- Embedding of BanditTool._run from agent_reviewer.py: identical control
flow to RuffTool._run (guard variable bound by the with-statement before
the write) with a 30-second timeout and the bandit command. -/
def _run (code_content : String) (createRaises writeRaises : Option String)
    (b : SubprocessBehavior) : PyM String :=
  pyTry
    (do
      namedTemporaryFile createRaises
      setCleanupVar
      fileWrite code_content writeRaises
      let process ← subprocessRun b cmd 30
      osUnlink
      pure process.stdout)
    (fun e => do
      let bound ← cleanupVarIsSet
      let stillThere ← osPathExists
      if bound && stillThere then osUnlink else pure ()
      pure ("Error during bandit execution: " ++ e.message))

end BanditTool

namespace PytestExecutionTool

/-- Command launched by PytestExecutionTool (sys.executable -m pytest
--cov=. <file>), abbreviated to the tool name for the TimeoutExpired
text. -/
def cmd : String := "pytest"

/-- Embedding of PytestExecutionTool._run from agent_reviewer.py: the
with-statement creates the temporary file, the script is written, and
only then is test_file_path assigned (the source initializes it to None
and assigns it on the line after the write — so the cleanup guard stays
unset while the write runs); pytest then runs with coverage under a
60-second timeout, the file is unlinked, and a message is formatted from
the return code (the source branches on returncode == 0 around two
return statements; the branch only selects the returned string).  The
except-branch unlinks the file when test_file_path is truthy and the
file exists, then returns an error-message string. -/
def _run (test_code : String) (createRaises writeRaises : Option String)
    (b : SubprocessBehavior) : PyM String :=
  pyTry
    (do
      namedTemporaryFile createRaises
      fileWrite test_code writeRaises
      setCleanupVar
      let process ← subprocessRun b cmd 60
      osUnlink
      pure (if process.returncode == 0 then
          "All tests passed!\n\nOutput:\n" ++ process.stdout
        else
          "Tests FAILED!\n\nSTDOUT:\n" ++ process.stdout ++ "\n\nSTDERR:\n" ++ process.stderr))
    (fun e => do
      let bound ← cleanupVarIsSet
      let stillThere ← osPathExists
      if bound && stillThere then osUnlink else pure ()
      pure ("Error during test/coverage execution: " ++ e.message))

end PytestExecutionTool

/-! ## Repository gateway (GitHubPRTool, GitHubPRCommentTool) -/

/-- A pull request as exposed by the PyGithub client: the head commit sha,
the filenames listed by pr.get_files() (the actually-changed file paths),
and the effect of pr.create_issue_comment. -/
structure PullRequest where
  headSha : String
  files : List String
  create_issue_comment : String → Except PyExn Unit

/-- A repository handle: repo.get_pull by number and
repo.get_contents(path, ref), already decoded from bytes to text. -/
structure Repo where
  get_pull : Int → Except PyExn PullRequest
  get_contents : String → String → Except PyExn String

/-- The authenticated GitHub client: client.get_repo by full name.  Any
raised exception (notably BadCredentialsException when the credential is
rejected) is modelled as the error branch. -/
structure GitHubClient where
  get_repo : String → Except PyExn Repo

/-- Python str.strip("/"): remove leading and trailing slash characters. -/
def stripSlashes (s : String) : String :=
  String.mk (((s.toList.dropWhile (fun c => c == '/')).reverse.dropWhile
    (fun c => c == '/')).reverse)

/-- Splitting a character list on the slash separator, with the semantics
of Python str.split("/"): the empty string yields one empty field, and
adjacent separators yield empty fields. -/
def splitSlashAux : List Char → List Char → List String
  | [], cur => [String.mk cur.reverse]
  | c :: rest, cur =>
    if c == '/' then String.mk cur.reverse :: splitSlashAux rest []
    else splitSlashAux rest (c :: cur)

/-- pr_url.strip("/").split("/"), as computed by both GitHub tools. -/
def prUrlParts (pr_url : String) : List String :=
  splitSlashAux (stripSlashes pr_url).toList []

/-- Python str.endswith(suffix), via character lists. -/
def pyEndsWith (s suffix : String) : Bool :=
  List.isSuffixOf suffix.toList s.toList

/-- Python str.startswith test used only in theorem statements to
classify a tool result as an error message. -/
def pyStartsWith (s pre : String) : Bool :=
  List.isPrefixOf pre.toList s.toList

/-- Whitespace characters handled by the Python str.strip() calls in this
development. -/
def pyIsSpace (c : Char) : Bool :=
  c == ' ' || c == '\t' || c == '\n' || c == '\r'

/-- Python str.strip(): remove leading and trailing whitespace. -/
def pyStrip (s : String) : String :=
  String.mk (((s.toList.dropWhile pyIsSpace).reverse.dropWhile pyIsSpace).reverse)

/-- ASCII whitespace stripped around the numeral by Python int():
tab through carriage return (9-13) and the space (32).  int() does not
strip the 0x1c-0x1f separators even though str.isspace() accepts them. -/
def pyIntIsSpace (c : Char) : Bool :=
  decide ((9 ≤ c.toNat ∧ c.toNat ≤ 13) ∨ c.toNat = 32)

/-- ASCII decimal digit test. -/
def isAsciiDigit (c : Char) : Bool :=
  decide (48 ≤ c.toNat ∧ c.toNat ≤ 57)

/-- Numeric value of an ASCII decimal digit. -/
def digitVal (c : Char) : Nat := c.toNat - 48

/-- The tail of a Python int() numeral after its first digit: decimal
digits with single underscores allowed only between two digits. -/
def pyDigitsAux : List Char → Nat → Option Nat
  | [], acc => some acc
  | c :: rest, acc =>
    if isAsciiDigit c then pyDigitsAux rest (acc * 10 + digitVal c)
    else if c == '_' then
      match rest with
      | [] => none
      | d :: rest2 =>
        if isAsciiDigit d then pyDigitsAux rest2 (acc * 10 + digitVal d)
        else none
    else none

/-- The digits part of a Python int() numeral: at least one digit, then
digits with underscore grouping. -/
def pyIntDigits : List Char → Option Nat
  | [] => none
  | c :: rest => if isAsciiDigit c then pyDigitsAux rest (digitVal c) else none

/-- Python int(s) on a character list, on the ASCII fragment of its
grammar: optional surrounding whitespace, an optional + or - sign, then
decimal digits with underscore grouping.  Python additionally accepts
non-ASCII Unicode digits and whitespace, so every theorem that relies on
this parse failing restricts itself to an all-ASCII number field. -/
def pyIntChars (cs : List Char) : Option Int :=
  match (cs.dropWhile pyIntIsSpace).reverse.dropWhile pyIntIsSpace |>.reverse with
  | '+' :: rest => (pyIntDigits rest).map (fun n => (n : Int))
  | '-' :: rest => (pyIntDigits rest).map (fun n => -(n : Int))
  | t => (pyIntDigits t).map (fun n => (n : Int))

/-- The URL shape check shared by both GitHub tools:
len(parts) < 4 or parts[-2] != "pull".  Negative indexing is total here
because the length test short-circuits in the source; getD with the same
index is equal whenever the index is in range. -/
def invalidFormat (parts : List String) : Bool :=
  decide (parts.length < 4) || decide (parts.getD (parts.length - 2) "" ≠ "pull")

/-- parts[-1], the pull-request number field of the reference. -/
def numberField (parts : List String) : String :=
  parts.getD (parts.length - 1) ""

/-- f-string building the repository full name from parts[-4] and
parts[-3]. -/
def repoNameOf (parts : List String) : String :=
  parts.getD (parts.length - 4) "" ++ "/" ++ parts.getD (parts.length - 3) ""

/-- Python int(s): the integer, or a raised ValueError carrying the
CPython message.  The accepted grammar (optional whitespace, optional
sign, digits with underscore grouping) is modelled by pyIntChars on the
ASCII fragment; a success of this model is always a success of Python
int() with the same value. -/
def pyInt (s : String) : Except PyExn Int :=
  match pyIntChars s.toList with
  | some n => Except.ok n
  | none => Except.error (PyExn.valueError
      ("invalid literal for int() with base 10: \x27" ++ s ++ "\x27"))

/-- JSON escaping as json.dumps performs it on the characters occurring in
this development: quote, backslash, newline, tab and carriage return are
escaped, other characters pass through. -/
def jsonEscape (s : String) : String :=
  s.toList.foldl (fun acc c =>
    acc ++ (if c == '"' then "\\\"" else if c == '\\' then "\\\\"
      else if c == '\n' then "\\n" else if c == '\t' then "\\t"
      else if c == '\r' then "\\r" else String.singleton c)) ""

/-- json.dumps on a string-to-string mapping in insertion order, the
serialization of the FileSet returned by the fetch tool. -/
def jsonDumps (kvs : List (String × String)) : String :=
  "\x7b" ++ String.intercalate ", "
      (kvs.map (fun kv => "\"" ++ jsonEscape kv.1 ++ "\": \"" ++ jsonEscape kv.2 ++ "\""))
    ++ "\x7d"

/-- The file-collection loop of GitHubPRTool._run: iterate the pull
request's changed files in order, keep those whose name ends in ".py",
and fetch each one's content at the given ref via repo.get_contents; any
exception from get_contents aborts the loop (to be caught by the tool's
outer except-branch). -/
def collectPyFiles (repo : Repo) (ref : String) :
    List String → List (String × String) → Except PyExn (List (String × String))
  | [], acc => Except.ok acc
  | f :: fs, acc =>
    if pyEndsWith f ".py" then
      match repo.get_contents f ref with
      | Except.ok content => collectPyFiles repo ref fs (acc ++ [(f, content)])
      | Except.error e => Except.error e
    else
      collectPyFiles repo ref fs acc

namespace GitHubPRTool

/-- The invalid-format message returned (not raised) by the fetch tool. -/
def invalidUrlMsg : String :=
  "Error: Invalid PR URL format. Expected \x27.../owner/repo/pull/number\x27."

/-- The message returned when the pull request has no changed .py file. -/
def noPyFilesMsg : String := "No .py files were found in this Pull Request."

/-- The try-block of GitHubPRTool._run from agent_reviewer.py: parse the
PR URL (returning the invalid-format message on a failed shape check),
parse the number with int(), resolve the repository and pull request,
read every changed .py file at the head sha, and serialize the mapping;
any raised exception propagates to the except-branch embedded in _run. -/
def body (gh : GitHubClient) (pr_url : String) : Except PyExn String :=
  if invalidFormat (prUrlParts pr_url) then
    Except.ok invalidUrlMsg
  else
    match pyInt (numberField (prUrlParts pr_url)) with
    | Except.error e => Except.error e
    | Except.ok pr_number =>
      match gh.get_repo (repoNameOf (prUrlParts pr_url)) with
      | Except.error e => Except.error e
      | Except.ok repo =>
        match repo.get_pull pr_number with
        | Except.error e => Except.error e
        | Except.ok pr =>
          match collectPyFiles repo pr.headSha pr.files [] with
          | Except.error e => Except.error e
          | Except.ok file_contents =>
            if file_contents.isEmpty then
              Except.ok noPyFilesMsg
            else
              Except.ok (jsonDumps file_contents)

/-- GitHubPRTool._run: the try-block above wrapped in the generic
except-branch that converts any exception into an error-message string,
so the tool always returns a plain string. -/
def _run (gh : GitHubClient) (pr_url : String) : String :=
  match body gh pr_url with
  | Except.ok s => s
  | Except.error e => "Error while processing GitHub PR: " ++ e.message

end GitHubPRTool

namespace GitHubPRCommentTool

/-- The invalid-format message returned (not raised) by the comment tool. -/
def invalidUrlMsg : String := "Error: Invalid PR URL format."

/-- The try-block of GitHubPRCommentTool._run from agent_reviewer.py:
parse the PR URL, resolve the repository and pull request, post the
comment, and confirm; any raised exception propagates to the
except-branch embedded in _run. -/
def body (gh : GitHubClient) (pr_url : String) (comment : String) : Except PyExn String :=
  if invalidFormat (prUrlParts pr_url) then
    Except.ok invalidUrlMsg
  else
    match pyInt (numberField (prUrlParts pr_url)) with
    | Except.error e => Except.error e
    | Except.ok pr_number =>
      match gh.get_repo (repoNameOf (prUrlParts pr_url)) with
      | Except.error e => Except.error e
      | Except.ok repo =>
        match repo.get_pull pr_number with
        | Except.error e => Except.error e
        | Except.ok pr =>
          match pr.create_issue_comment comment with
          | Except.error e => Except.error e
          | Except.ok _ => Except.ok "Comment posted successfully."

/-- GitHubPRCommentTool._run: the try-block above wrapped in the generic
except-branch that converts any exception into an error-message string. -/
def _run (gh : GitHubClient) (pr_url : String) (comment : String) : String :=
  match body gh pr_url comment with
  | Except.ok s => s
  | Except.error e => "Error posting comment: " ++ e.message

end GitHubPRCommentTool

/-! ## Configuration and process exit (setup_environment, main) -/

/-- Python truthiness of an optional environment value: set and non-empty.
os.getenv returns None for an absent variable; both None and the empty
string are falsy. -/
def truthyEnv : Option String → Bool
  | some s => !(s == "")
  | none => false

/-- os.getenv("PAT_COMMENT") or os.getenv("GITHUB_PAT"): the Python or
operator returns its first operand when truthy and its second operand
otherwise. -/
def pyOrEnv (a b : Option String) : Option String :=
  if truthyEnv a then a else b

/-- setup_environment from agent_reviewer.py: read GOOGLE_API_KEY and the
repository credential (PAT_COMMENT falling back to GITHUB_PAT), raise
ValueError when either is falsy (absent or empty), and return the chosen
repository credential.  The writes back into os.environ carry no further
information and are omitted. -/
def setup_environment (env : String → Option String) : Except PyExn String :=
  if truthyEnv (env "GOOGLE_API_KEY") = false then
    Except.error (PyExn.valueError "GOOGLE_API_KEY not found in OS Environment/Secrets.")
  else if truthyEnv (pyOrEnv (env "PAT_COMMENT") (env "GITHUB_PAT")) = false then
    Except.error (PyExn.valueError "GITHUB_PAT/PAT_COMMENT not found in OS Environment/Secrets.")
  else
    Except.ok ((pyOrEnv (env "PAT_COMMENT") (env "GITHUB_PAT")).getD "")

/-- Exit code of main in agent_reviewer.py as a function of the
environment and of the crew-kickoff outcome: a ValueError from
setup_environment is caught and answered with sys.exit(1) before any tool
or stage is created; otherwise the agents, tasks and crew are built and
kickoff runs — main then returns normally (exit code 0), unless kickoff
itself raises and the uncaught exception ends the process with code 1.
Tool construction (Auth.Token plus the Github client constructor)
performs no network call and does not raise for a non-empty token string,
so it adds no separate failure case. -/
def main_exit_code (env : String → Option String) (kickoff : Except PyExn String) : Nat :=
  match setup_environment env with
  | Except.error _ => 1
  | Except.ok _ =>
    match kickoff with
    | Except.ok _ => 0
    | Except.error _ => 1

/-! ## Reasoning invoker (ask_gemini from simple_reviewer.py) -/

/-- Shape of the Gemini response object, as ask_gemini inspects it:
a response carrying .text, one carrying text only under
candidates[0].content.parts[0], one whose first part has no text
attribute, or one matching no known structure. -/
inductive GeminiResponse where
  | hasText (t : String)
  | candidatesWithText (t : String)
  | partWithoutText
  | noExtractableText
  deriving DecidableEq

/-- One model.generate_content call: either a response object or a raised
exception (service unreachable, malformed credential, quota). -/
inductive GeminiBehavior where
  | responds (r : GeminiResponse)
  | raises (msg : String)
  deriving DecidableEq

/-- ask_gemini from simple_reviewer.py: send the prompt, extract text from
the known response shapes (stripped), fall back to fixed error strings on
unknown shapes, and convert any raised exception into an error-message
string — the function always returns a plain string. -/
def ask_gemini (behavior : GeminiBehavior) (prompt : String) : String :=
  match behavior with
  | GeminiBehavior.responds (GeminiResponse.hasText t) => pyStrip t
  | GeminiBehavior.responds (GeminiResponse.candidatesWithText t) => pyStrip t
  | GeminiBehavior.responds GeminiResponse.partWithoutText =>
      "Error: Part structure incorrect."
  | GeminiBehavior.responds GeminiResponse.noExtractableText =>
      "Error: Could not extract text from response structure."
  | GeminiBehavior.raises m => "Error: An exception occurred - " ++ m

/-! ## Concrete oracles used to evaluate the embeddings -/

/-- A pull request with one changed Python file and one changed
non-Python file. -/
def prCalc : PullRequest :=
  PullRequest.mk "abc123" ["calc.py", "README.md"] (fun _ => Except.ok ())

/-- A pull request whose changed files contain no .py file. -/
def prNoPy : PullRequest :=
  PullRequest.mk "abc123" ["README.md", "docs/guide.txt"] (fun _ => Except.ok ())

/-- A repository serving the two pull requests above, with calc.py
readable at the head sha only. -/
def repoDemo : Repo :=
  Repo.mk
    (fun n => if n = 1 then Except.ok prCalc
      else if n = 2 then Except.ok prNoPy
      else Except.error (PyExn.generic "404 Not Found"))
    (fun path ref => if path = "calc.py" ∧ ref = "abc123" then Except.ok "def add(a, b): return a + b"
      else Except.error (PyExn.generic "404 Not Found"))

/-- A GitHub client that resolves the full name o/r to repoDemo. -/
def ghDemo : GitHubClient :=
  GitHubClient.mk (fun name =>
    if name = "o/r" then Except.ok repoDemo else Except.error (PyExn.generic "404 Not Found"))

/-- A GitHub client whose credential is rejected: every get_repo call
raises BadCredentialsException. -/
def ghRejected : GitHubClient :=
  GitHubClient.mk (fun _ => Except.error (PyExn.badCredentials "401 Bad credentials"))

/-- An environment with all three credential variables set non-empty. -/
def envFull : String → Option String := fun name =>
  if name = "GOOGLE_API_KEY" then some "gkey"
  else if name = "PAT_COMMENT" then some "patc"
  else if name = "GITHUB_PAT" then some "ghtok"
  else none

/-- An environment missing GOOGLE_API_KEY. -/
def envNoGoogle : String → Option String := fun name =>
  if name = "PAT_COMMENT" then some "patc" else none

/-- An environment where PAT_COMMENT is set to the empty string while
GITHUB_PAT is set to a token. -/
def envEmptyPat : String → Option String := fun name =>
  if name = "GOOGLE_API_KEY" then some "gkey"
  else if name = "PAT_COMMENT" then some ""
  else if name = "GITHUB_PAT" then some "ghtok"
  else none

/-! ## Claims C1, C2, C5 — the sandboxed tool runner -/

/-- C1 counterexample.  The claim says a timed-out tool invocation returns
a distinguished result with timedOut=true.  In the code, timeout expiry is
just one more exception caught by the generic handler: the run on a
timed-out process is byte-for-byte identical to the run on a process that
raised a generic exception carrying the same text, so no result field
distinguishes a timeout. -/
theorem C1_timeout_not_distinguished :
    (RuffTool._run "x = 1" none none SubprocessBehavior.timesOut) freshSandbox
      = (RuffTool._run "x = 1" none none
          (SubprocessBehavior.raises "Command ruff timed out after 30 seconds")) freshSandbox := by
  rfl

/-- C1 (amended): when the launched process exceeds its configured
wall-clock timeout (30 seconds for ruff and bandit, 60 seconds for
pytest), the tool runner catches the TimeoutExpired exception and returns
an ordinary error-message string — the same shape as any other caught
failure, with no timedOut field — rather than raising a fatal error, and
the temporary file is removed. -/
theorem C1_timeout_caught_as_error_string (content : String) :
    (RuffTool._run content none none SubprocessBehavior.timesOut) freshSandbox
      = (Except.ok ("Error during ruff execution: "
          ++ (PyExn.timeoutExpired RuffTool.cmd 30).message), SandboxState.mk false true)
    ∧ (BanditTool._run content none none SubprocessBehavior.timesOut) freshSandbox
      = (Except.ok ("Error during bandit execution: "
          ++ (PyExn.timeoutExpired BanditTool.cmd 30).message), SandboxState.mk false true)
    ∧ (PytestExecutionTool._run content none none SubprocessBehavior.timesOut) freshSandbox
      = (Except.ok ("Error during test/coverage execution: "
          ++ (PyExn.timeoutExpired PytestExecutionTool.cmd 60).message), SandboxState.mk false true) :=
  ⟨rfl, rfl, rfl⟩

/-- C2 counterexample.  The claim says the temporary file is removed on
every exit path of every tool.  In PytestExecutionTool._run the cleanup
guard variable test_file_path is assigned only on the line after
test_file.write: when the write raises (e.g., the disk fills), the file
already exists on disk but the guard is still None, so the except-branch
skips the unlink and the file is leaked — while the exception is still
caught and stringified.  RuffTool cleans up on the same path, because its
guard is code_file being in locals, which the with-binding establishes
before the write. -/
theorem C2_pytest_write_exception_leaks_temp_file :
    ((PytestExecutionTool._run "assert True" none (some "No space left on device")
        (SubprocessBehavior.completes 0 "" "")) freshSandbox).2.tempFileExists = true
    ∧ ((PytestExecutionTool._run "assert True" none (some "No space left on device")
        (SubprocessBehavior.completes 0 "" "")) freshSandbox).1
      = Except.ok ("Error during test/coverage execution: " ++ "No space left on device")
    ∧ ((RuffTool._run "assert True" none (some "No space left on device")
        (SubprocessBehavior.completes 0 "" "")) freshSandbox).2.tempFileExists = false :=
  ⟨rfl, rfl, rfl⟩

/-- C2 (amended): for RuffTool and BanditTool the temporary file is
removed on every exit path — normal completion with any exit code,
timeout expiry, process-launch failure, and exceptions during file
creation or write (their guard, code_file in locals, is already set once
the with-binding succeeds).  For PytestExecutionTool the file is removed
on every exit path except one: when the write raises after the file is
created but before test_file_path is assigned, the except-branch guard
on the still-None path variable skips the unlink and the temporary file
is leaked. -/
theorem C2_temp_file_cleanup_per_tool
    (content m : String) (createRaises writeRaises : Option String)
    (b : SubprocessBehavior) :
    ((RuffTool._run content createRaises writeRaises b) freshSandbox).2.tempFileExists = false
    ∧ ((BanditTool._run content createRaises writeRaises b) freshSandbox).2.tempFileExists = false
    ∧ ((PytestExecutionTool._run content createRaises none b) freshSandbox).2.tempFileExists
        = false
    ∧ ((PytestExecutionTool._run content (some m) writeRaises b) freshSandbox).2.tempFileExists
        = false
    ∧ ((PytestExecutionTool._run content none (some m) b) freshSandbox).2.tempFileExists
        = true := by
  refine ⟨?_, ?_, ?_, ?_, ?_⟩ <;> cases createRaises <;> cases writeRaises <;> cases b <;> rfl

/-- C5 counterexample.  The claim says the runner returns the exit code
and both streams verbatim in a result of shape {exitCode, standardOutput,
standardError, timedOut}.  In the code RuffTool returns only stdout: two
completed processes differing in exit code and stderr produce identical
results, so neither field is part of the result. -/
theorem C5_exit_code_and_stderr_dropped :
    (RuffTool._run "x = 1" none none (SubprocessBehavior.completes 0 "out" "errA")) freshSandbox
      = (RuffTool._run "x = 1" none none
          (SubprocessBehavior.completes 7 "out" "errB")) freshSandbox := by
  rfl

/-- C5 (amended): each tool invocation returns a single string, not a
structured record: ruff and bandit return the raw stdout only (the exit
code and stderr are dropped from the result; stderr is merely logged),
while pytest returns a formatted message that embeds stdout on success
and stdout plus stderr on failure; no timedOut or exitCode field exists
in any result. -/
theorem C5_runner_returns_single_string (content out err : String) (rc : Int) :
    (RuffTool._run content none none (SubprocessBehavior.completes rc out err)) freshSandbox
      = (Except.ok out, SandboxState.mk false true)
    ∧ (BanditTool._run content none none (SubprocessBehavior.completes rc out err)) freshSandbox
      = (Except.ok out, SandboxState.mk false true)
    ∧ (PytestExecutionTool._run content none none
          (SubprocessBehavior.completes rc out err)) freshSandbox
      = (Except.ok (if rc == 0 then "All tests passed!\n\nOutput:\n" ++ out
          else "Tests FAILED!\n\nSTDOUT:\n" ++ out ++ "\n\nSTDERR:\n" ++ err),
         SandboxState.mk false true) :=
  ⟨rfl, rfl, rfl⟩

/-! ## Claims C3, C6, C7, C9, C10 — the repository gateway -/

/-- Invariant of the file-collection loop: every pair in a successful
result comes either from the accumulator or from a .py member of the
remaining file list, with its content read at the given ref. -/
theorem collectPyFiles_mem (repo : Repo) (ref : String) :
    ∀ (fs : List String) (acc l : List (String × String)),
      collectPyFiles repo ref fs acc = Except.ok l →
      ∀ p c, (p, c) ∈ l →
        (p, c) ∈ acc
        ∨ (p ∈ fs ∧ pyEndsWith p ".py" = true ∧ repo.get_contents p ref = Except.ok c) := by
  intro fs
  induction fs with
  | nil =>
    intro acc l h p c hmem
    rw [collectPyFiles] at h
    injection h with h2
    subst h2
    exact Or.inl hmem
  | cons f fs ih =>
    intro acc l h p c hmem
    rw [collectPyFiles] at h
    by_cases hpy : pyEndsWith f ".py" = true
    · rw [if_pos hpy] at h
      cases hget : repo.get_contents f ref with
      | ok content =>
        rw [hget] at h
        rcases ih (acc ++ [(f, content)]) l h p c hmem with hin | ⟨hf, hpy2, hc2⟩
        · rcases List.mem_append.mp hin with h1 | h2
          · exact Or.inl h1
          · have h3 : p = f ∧ c = content := by simpa using h2
            refine Or.inr ⟨?_, ?_, ?_⟩
            · rw [h3.1]; exact List.mem_cons_self f fs
            · rw [h3.1]; exact hpy
            · rw [h3.1, h3.2]; exact hget
        · exact Or.inr ⟨List.mem_cons_of_mem f hf, hpy2, hc2⟩
      | error e =>
        rw [hget] at h
        exact absurd h (by simp)
    · rw [if_neg hpy] at h
      rcases ih acc l h p c hmem with hin | ⟨hf, hpy2, hc2⟩
      · exact Or.inl hin
      · exact Or.inr ⟨List.mem_cons_of_mem f hf, hpy2, hc2⟩

/-- C9: for every resolved pull request, the file collection performed by
GitHubPRTool._run keeps exactly files whose path ends in .py, reads each
kept file's content at the pull request's head sha (never another ref),
and every key of the resulting FileSet is one of the pull request's
actually-changed file paths. -/
theorem C9_fetch_filters_py_at_head_subset
    (repo : Repo) (pr : PullRequest) (l : List (String × String)) (p c : String)
    (h : collectPyFiles repo pr.headSha pr.files [] = Except.ok l)
    (hmem : (p, c) ∈ l) :
    p ∈ pr.files ∧ pyEndsWith p ".py" = true
    ∧ repo.get_contents p pr.headSha = Except.ok c := by
  rcases collectPyFiles_mem repo pr.headSha pr.files [] l h p c hmem with hin | h2
  · simp at hin
  · exact h2

/-- C9 witness: evaluating the fetch of a concrete pull request with one
changed .py file and one changed non-.py file. -/
theorem C9_witness :
    "calc.py" ∈ prCalc.files ∧ pyEndsWith "calc.py" ".py" = true
    ∧ repoDemo.get_contents "calc.py" prCalc.headSha = Except.ok "def add(a, b): return a + b" :=
  C9_fetch_filters_py_at_head_subset repoDemo prCalc
    [("calc.py", "def add(a, b): return a + b")] "calc.py" "def add(a, b): return a + b"
    rfl (by decide)

/-- C3 counterexample.  The claim says every reference not matching the
shape .../owner/repo/pull/number is rejected with the distinguished
invalid-reference error.  The reference o/r/pull/abc does not match that
shape (its number field is not numeric), yet both tools let it pass the
shape check and fail only inside int(): the result is the generic
exception-handler string, not the invalid-format message. -/
theorem C3_nonnumeric_number_not_invalid_reference :
    GitHubPRTool._run ghDemo "o/r/pull/abc"
        = "Error while processing GitHub PR: invalid literal for int() with base 10: \x27abc\x27"
    ∧ GitHubPRTool._run ghDemo "o/r/pull/abc" ≠ GitHubPRTool.invalidUrlMsg
    ∧ GitHubPRCommentTool._run ghDemo "o/r/pull/abc" "hi"
        = "Error posting comment: invalid literal for int() with base 10: \x27abc\x27"
    ∧ GitHubPRCommentTool._run ghDemo "o/r/pull/abc" "hi" ≠ GitHubPRCommentTool.invalidUrlMsg :=
  ⟨rfl, by decide, rfl, by decide⟩

/-- C3 (amended): a reference failing the segment-count/pull-position
shape check is rejected by both tools with their fixed invalid-format
message strings before any network call; a reference passing that check
whose number field is not an int() numeral (the field is all-ASCII — the
domain on which pyIntChars provably agrees with Python int(), which also
accepts non-ASCII digits — and the parse fails) is rejected through the
int() ValueError and the generic handler, likewise before any network
call.  In both cases the result is independent of the GitHub client,
which is how "no network call" is observable in this model. -/
theorem C3_invalid_shape_rejected_before_network
    (gh gh2 : GitHubClient) (pr_url comment : String) :
    (invalidFormat (prUrlParts pr_url) = true →
      GitHubPRTool._run gh pr_url = GitHubPRTool.invalidUrlMsg
      ∧ GitHubPRCommentTool._run gh pr_url comment = GitHubPRCommentTool.invalidUrlMsg)
    ∧ (invalidFormat (prUrlParts pr_url) = false →
      (∀ c ∈ (numberField (prUrlParts pr_url)).toList, c.toNat < 128) →
      pyIntChars (numberField (prUrlParts pr_url)).toList = none →
      GitHubPRTool._run gh pr_url
          = "Error while processing GitHub PR: "
            ++ ("invalid literal for int() with base 10: \x27"
              ++ numberField (prUrlParts pr_url) ++ "\x27")
      ∧ GitHubPRCommentTool._run gh pr_url comment
          = "Error posting comment: "
            ++ ("invalid literal for int() with base 10: \x27"
              ++ numberField (prUrlParts pr_url) ++ "\x27")
      ∧ GitHubPRTool._run gh pr_url = GitHubPRTool._run gh2 pr_url
      ∧ GitHubPRCommentTool._run gh pr_url comment
          = GitHubPRCommentTool._run gh2 pr_url comment) := by
  constructor
  · intro h
    constructor
    · simp [GitHubPRTool._run, GitHubPRTool.body, h]
    · simp [GitHubPRCommentTool._run, GitHubPRCommentTool.body, h]
  · intro h hascii hn
    have hn2 : pyIntChars (numberField (prUrlParts pr_url)).data = none := hn
    have hint : pyInt (numberField (prUrlParts pr_url))
        = Except.error (PyExn.valueError
            ("invalid literal for int() with base 10: \x27"
              ++ numberField (prUrlParts pr_url) ++ "\x27")) := by
      simp [pyInt, hn, hn2]
    refine ⟨?_, ?_, ?_, ?_⟩ <;>
      simp [GitHubPRTool._run, GitHubPRTool.body, GitHubPRCommentTool._run,
        GitHubPRCommentTool.body, h, hint, PyExn.message]

/-- C3 witness: a reference with too few segments gets the fixed
invalid-format message, and a shape-passing reference with a non-numeric
number gets the generic handler's message from the comment tool. -/
theorem C3_witness :
    GitHubPRTool._run ghDemo "nope" = GitHubPRTool.invalidUrlMsg
    ∧ GitHubPRCommentTool._run ghDemo "o/r/pull/abc" "hi"
        = "Error posting comment: "
          ++ ("invalid literal for int() with base 10: \x27"
            ++ numberField (prUrlParts "o/r/pull/abc") ++ "\x27") := by
  constructor
  · exact ((C3_invalid_shape_rejected_before_network ghDemo ghDemo "nope" "hi").1 (by decide)).1
  · exact (((C3_invalid_shape_rejected_before_network ghDemo ghRejected
      "o/r/pull/abc" "hi").2 (by decide) (by decide) (by decide)).2).1

/-- C6 counterexample.  The claim says a pull request with no matching
.py files makes the fetch return an empty FileSet.  The code instead
returns a fixed informational sentence, which is not the serialization of
an empty mapping. -/
theorem C6_no_py_files_message_not_empty_fileset :
    GitHubPRTool._run ghDemo "o/r/pull/2" = "No .py files were found in this Pull Request."
    ∧ GitHubPRTool._run ghDemo "o/r/pull/2" ≠ jsonDumps [] :=
  ⟨rfl, by decide⟩

/-- C6 (amended): when the reference resolves and the pull request's
changed files contain no .py file, the fetch returns the fixed
informational string "No .py files were found in this Pull Request." —
a non-error result produced without raising — rather than a serialized
empty mapping. -/
theorem C6_no_py_files_returns_message
    (gh : GitHubClient) (pr_url : String) (repo : Repo) (pr : PullRequest) (n : Int)
    (hshape : invalidFormat (prUrlParts pr_url) = false)
    (hnum : pyInt (numberField (prUrlParts pr_url)) = Except.ok n)
    (hrepo : gh.get_repo (repoNameOf (prUrlParts pr_url)) = Except.ok repo)
    (hpull : repo.get_pull n = Except.ok pr)
    (hfiles : collectPyFiles repo pr.headSha pr.files [] = Except.ok []) :
    GitHubPRTool._run gh pr_url = GitHubPRTool.noPyFilesMsg
    ∧ pyStartsWith (GitHubPRTool._run gh pr_url) "Error" = false := by
  have hbody : GitHubPRTool.body gh pr_url = Except.ok GitHubPRTool.noPyFilesMsg := by
    simp [GitHubPRTool.body, hshape, hnum, hrepo, hpull, hfiles]
  have hrun : GitHubPRTool._run gh pr_url = GitHubPRTool.noPyFilesMsg := by
    simp [GitHubPRTool._run, hbody]
  exact ⟨hrun, by rw [hrun]; decide⟩

/-- C6 witness: a concrete pull request whose changed files are
README.md and docs/guide.txt only. -/
theorem C6_witness :
    GitHubPRTool._run ghDemo "o/r/pull/2" = GitHubPRTool.noPyFilesMsg
    ∧ pyStartsWith (GitHubPRTool._run ghDemo "o/r/pull/2") "Error" = false :=
  C6_no_py_files_returns_message ghDemo "o/r/pull/2" repoDemo prNoPy 2
    (by decide) rfl rfl rfl rfl

/-! ## Claims C4, C7, C8, C10 — failure propagation, configuration, totality -/

/-- C4 counterexample.  The claim says a reasoning-service exception is
not caught and propagates to abort the run.  In ask_gemini the exception
is caught and converted into a text result of the success shape — indeed
the very string a well-behaved service could itself have produced. -/
theorem C4_reasoning_exception_converted_to_text :
    ask_gemini (GeminiBehavior.raises "503 Service Unavailable") "review this code"
      = "Error: An exception occurred - 503 Service Unavailable"
    ∧ ask_gemini (GeminiBehavior.raises "503 Service Unavailable") "review this code"
      = ask_gemini (GeminiBehavior.responds
          (GeminiResponse.hasText "Error: An exception occurred - 503 Service Unavailable"))
          "review this code" :=
  ⟨rfl, by decide⟩

/-- C4 (amended): every exception raised by the reasoning invocation
(service unreachable, malformed credential) is caught inside ask_gemini
and returned as the string "Error: An exception occurred - " plus the
exception text — a value of the same type and shape as a success result —
so the invoker never propagates the error or aborts the run by itself. -/
theorem C4_reasoning_exception_returns_error_string (msg prompt : String) :
    ask_gemini (GeminiBehavior.raises msg) prompt
      = "Error: An exception occurred - " ++ msg := rfl

/-- C7 counterexample.  The claim says a rejected repository credential
makes the fetch fail with a distinguished AuthenticationError, aborts the
run as Fatal and yields a non-zero process exit code.  In the code the
BadCredentialsException is caught inside the fetch tool and returned as
an ordinary result string, and with configuration present the process
exit code after a completed crew run is 0. -/
theorem C7_auth_rejection_not_fatal :
    GitHubPRTool._run ghRejected "https://github.com/o/r/pull/1"
      = "Error while processing GitHub PR: 401 Bad credentials"
    ∧ main_exit_code envFull (Except.ok "crew result") = 0 :=
  ⟨rfl, rfl⟩

/-- C7 (amended): credential rejection during fetch is caught inside the
fetch tool: for every client all of whose get_repo calls raise
BadCredentialsException and every reference passing the shape and number
parses, the fetch returns the string "Error while processing GitHub PR: "
plus the exception text instead of raising, so the tool layer does not
abort the run; and the process exit code is 0 whenever the required
configuration was present and the crew run completes. -/
theorem C7_auth_rejection_returns_error_string
    (msg pr_url : String) (n : Int) (env : String → Option String) (r : String)
    (hshape : invalidFormat (prUrlParts pr_url) = false)
    (hnum : pyInt (numberField (prUrlParts pr_url)) = Except.ok n)
    (hsetup : ∃ v, setup_environment env = Except.ok v) :
    GitHubPRTool._run
        (GitHubClient.mk (fun _ => Except.error (PyExn.badCredentials msg))) pr_url
      = "Error while processing GitHub PR: " ++ msg
    ∧ main_exit_code env (Except.ok r) = 0 := by
  constructor
  · simp [GitHubPRTool._run, GitHubPRTool.body, hshape, hnum, PyExn.message]
  · obtain ⟨v, hv⟩ := hsetup
    unfold main_exit_code
    rw [hv]

/-- C7 witness: concrete rejected-credential client, reference and full
environment. -/
theorem C7_witness :
    GitHubPRTool._run
        (GitHubClient.mk (fun _ => Except.error (PyExn.badCredentials "401 Bad credentials")))
        "o/r/pull/1"
      = "Error while processing GitHub PR: " ++ "401 Bad credentials"
    ∧ main_exit_code envFull (Except.ok "done") = 0 :=
  C7_auth_rejection_returns_error_string "401 Bad credentials" "o/r/pull/1" 1 envFull "done"
    (by decide) rfl ⟨"patc", rfl⟩

/-- C8 counterexample.  The claim says PAT_COMMENT takes precedence over
GITHUB_PAT whenever both variables are set.  With PAT_COMMENT set to the
empty string and GITHUB_PAT set to a token — both set — the chosen
credential is GITHUB_PAT's value: Python or-truthiness, not variable
presence, decides the fallback. -/
theorem C8_empty_pat_comment_falls_back :
    setup_environment envEmptyPat = Except.ok "ghtok"
    ∧ envEmptyPat "PAT_COMMENT" = some ""
    ∧ envEmptyPat "GITHUB_PAT" = some "ghtok" :=
  ⟨rfl, rfl, rfl⟩

/-- C8 (amended): if GOOGLE_API_KEY is absent, or both PAT_COMMENT and
GITHUB_PAT are absent, the program stops in setup_environment before any
tool or stage is created and the process exit code is 1; and PAT_COMMENT
takes precedence over GITHUB_PAT whenever it is set to a non-empty value
(an empty PAT_COMMENT instead falls through to GITHUB_PAT). -/
theorem C8_missing_credentials_exit_nonzero
    (env : String → Option String) (k : Except PyExn String) (p g : String) :
    (env "GOOGLE_API_KEY" = none → main_exit_code env k = 1)
    ∧ (env "PAT_COMMENT" = none → env "GITHUB_PAT" = none → main_exit_code env k = 1)
    ∧ (env "GOOGLE_API_KEY" = some g → g ≠ "" → env "PAT_COMMENT" = some p → p ≠ "" →
        setup_environment env = Except.ok p) := by
  refine ⟨?_, ?_, ?_⟩
  · intro h
    simp [main_exit_code, setup_environment, h, truthyEnv]
  · intro hp hg
    unfold main_exit_code setup_environment
    rw [hp, hg]
    cases htg : truthyEnv (env "GOOGLE_API_KEY") <;> simp [pyOrEnv, truthyEnv]
  · intro hg hgne hp hpne
    have h1 : (g == "") = false := by simp [hgne]
    have h2 : (p == "") = false := by simp [hpne]
    simp [setup_environment, pyOrEnv, truthyEnv, hg, hp, h1, h2]

/-- C8 witness: a concrete environment without GOOGLE_API_KEY exits with
code 1, and a concrete environment with all variables non-empty selects
PAT_COMMENT's value. -/
theorem C8_witness :
    main_exit_code envNoGoogle (Except.ok "r") = 1
    ∧ setup_environment envFull = Except.ok "patc" := by
  constructor
  · exact (C8_missing_credentials_exit_nonzero envNoGoogle (Except.ok "r") "patc" "gkey").1 rfl
  · exact (C8_missing_credentials_exit_nonzero envFull (Except.ok "r") "patc" "gkey").2.2
      rfl (by decide) rfl (by decide)

/-- C10: both GitHub tools are total string interfaces: every exception
raised inside the try-block — credential rejection, network error, or a
shape-passing reference whose number field fails int() — is caught and
returned as an ordinary string made of the tool's fixed error text plus
the exception message, a value of the same type as a success result, so
callers can distinguish failure from a genuine artifact only by
inspecting the text. -/
theorem C10_tools_total_error_strings
    (gh : GitHubClient) (pr_url comment : String) (e : PyExn) :
    (GitHubPRTool.body gh pr_url = Except.error e →
      GitHubPRTool._run gh pr_url = "Error while processing GitHub PR: " ++ e.message)
    ∧ (GitHubPRCommentTool.body gh pr_url comment = Except.error e →
      GitHubPRCommentTool._run gh pr_url comment = "Error posting comment: " ++ e.message) := by
  constructor
  · intro h
    simp [GitHubPRTool._run, h]
  · intro h
    simp [GitHubPRCommentTool._run, h]

/-- C10 witness: a repository that does not exist makes the fetch return
the generic handler's string. -/
theorem C10_witness :
    GitHubPRTool._run ghDemo "x/y/pull/7"
      = "Error while processing GitHub PR: " ++ (PyExn.generic "404 Not Found").message :=
  (C10_tools_total_error_strings ghDemo "x/y/pull/7" "hi" (PyExn.generic "404 Not Found")).1 rfl
